import Mathlib

/-!
Shallow embedding of the Fliplet publishing widget's workflow orchestration
logic (`PublishingService` in the service module, plus the progress
projection in `js/build.js`).

Conventions of the embedding:
* JavaScript strings are Lean `String`s; `undefined`/absent values are
  `Option.none`.
* JS falsiness on string-valued fields is modelled by `jsFalsyStr`
  (absent or empty string), and on the numeric `organizationId` by
  `jsFalsyNat` (absent or zero).
* Each remote (`this.ajax`) call is modelled by an explicit
  `Except String _` argument giving the outcome of that call; an
  operation's result records the updated service state, the
  success/error outcome, and whether the remote call was performed.
* Thrown JS errors become `Except.error` values carrying the message.
-/

namespace Publishing

/-! Status constants, mirroring the constructor of `PublishingService`. -/

namespace SUBMISSION_STATUS

def STARTED : String := "started"

def COMPLETED : String := "completed"

def FAILED : String := "failed"

def CANCELLED : String := "cancelled"

def BUILD_TRIGGERED : String := "BUILD_TRIGGERED"

end SUBMISSION_STATUS

namespace DATA_STATUS

def INITIALIZED : String := "INITIALIZED"

def STORE_CONFIG_SUBMITTED : String := "STORE_CONFIG_SUBMITTED"

def PUSH_NOTIFICATION_CONFIGURED : String := "PUSH_NOTIFICATION_CONFIGURED"

def METADATA_SUBMITTED : String := "METADATA_SUBMITTED"

def BUILD_TRIGGERED : String := "BUILD_TRIGGERED"

end DATA_STATUS

namespace PLATFORMS

def IOS : String := "ios"

def ANDROID : String := "android"

end PLATFORMS

def TERMINAL_STATUSES : List String := ["completed", "failed", "cancelled"]

/-! Data model.  A submission record has an outer lifecycle `status` and an
optional `data` object carrying the inner step marker `data.status`
(read in the source as `submission.data?.status`). -/

structure SubmissionData where
  status : Option String
  deriving Repr, DecidableEq

structure Submission where
  status : String
  data : Option SubmissionData
  deriving Repr, DecidableEq

/-- JS falsiness for a possibly absent string field: `undefined`, `null`
and the empty string are falsy; every other string is truthy. -/
def jsFalsyStr (o : Option String) : Bool :=
  match o with
  | none => true
  | some s => s.isEmpty

/-- JS falsiness for the numeric `organizationId` field: absent and `0`
are falsy. -/
def jsFalsyNat (o : Option Nat) : Bool :=
  match o with
  | none => true
  | some n => n == 0

/-- `submission.data?.status` for a possibly absent submission. -/
def dataStatusOf (submission : Option Submission) : Option String :=
  (submission.bind Submission.data).bind SubmissionData.status

/-! Pure workflow-state resolver functions of `PublishingService`. -/

/-- `PublishingService.needsNewSubmission`: true when the submission is
absent, its outer status is terminal, or (redundantly, kept as in the
source) its `data.status` is `BUILD_TRIGGERED` and its outer status is
terminal. -/
def needsNewSubmission (submission : Option Submission) : Bool :=
  match submission with
  | none => true
  | some s =>
      TERMINAL_STATUSES.contains s.status ||
      ((s.data.bind SubmissionData.status == some DATA_STATUS.BUILD_TRIGGERED) &&
        TERMINAL_STATUSES.contains s.status)

/-- `PublishingService.determineCurrentStep`: map a submission and platform
to the canonical current step name. -/
def determineCurrentStep (submission : Option Submission) (platform : String) : String :=
  if submission.isNone || needsNewSubmission submission then "initialize"
  else
    match submission with
    | none => "initialize"
    | some s =>
        if s.status ≠ SUBMISSION_STATUS.STARTED then "initialize"
        else
          match s.data.bind SubmissionData.status with
          | some ds =>
              if ds = DATA_STATUS.INITIALIZED then
                (if platform = PLATFORMS.IOS then "api-key" else "bundle-keystore")
              else if ds = DATA_STATUS.STORE_CONFIG_SUBMITTED then "push-config"
              else if ds = DATA_STATUS.PUSH_NOTIFICATION_CONFIGURED then "app-store-listing"
              else if ds = DATA_STATUS.METADATA_SUBMITTED then "trigger-build"
              else if ds = DATA_STATUS.BUILD_TRIGGERED then "monitor-build"
              else "initialize"
          | none => "initialize"

/-- `PublishingService.canProceedToStep`: false exactly on the in-flight
build case, true otherwise.  The `platform` parameter is accepted but
unused, as in the source. -/
def canProceedToStep (submission : Option Submission) (_platform : String) : Bool :=
  match submission with
  | none => true
  | some s =>
      if s.status ≠ SUBMISSION_STATUS.STARTED then true
      else if s.data.bind SubmissionData.status = some DATA_STATUS.BUILD_TRIGGERED ∧
              s.status = SUBMISSION_STATUS.STARTED then false
      else true

/-! Step-order helpers (`PublishingService.validateStepAccess`). -/

def stepOrder : List String :=
  [DATA_STATUS.INITIALIZED,
   DATA_STATUS.STORE_CONFIG_SUBMITTED,
   DATA_STATUS.PUSH_NOTIFICATION_CONFIGURED,
   DATA_STATUS.METADATA_SUBMITTED,
   DATA_STATUS.BUILD_TRIGGERED]

/-- Accumulator form of `Array.prototype.indexOf` over a list. -/
def jsIndexOfFrom : List String → String → Int → Int
  | [], _, _ => -1
  | a :: rest, s, i => if a = s then i else jsIndexOfFrom rest s (i + 1)

/-- `stepOrder.indexOf(x)` where `x` may be `undefined` (then `-1`). -/
def jsIndexOf (l : List String) (x : Option String) : Int :=
  match x with
  | none => -1
  | some s => jsIndexOfFrom l s 0

/-- `PublishingService.validateStepAccess`: throws when the actual
`data.status` index is more than one position behind the required one.
Note: this helper is defined in the service but is not invoked by any of
the step-submission methods. -/
def validateStepAccess (requiredDataStatus actualDataStatus : Option String) :
    Except String Unit :=
  let requiredIndex := jsIndexOf stepOrder requiredDataStatus
  let actualIndex := jsIndexOf stepOrder actualDataStatus
  if actualIndex < requiredIndex - 1 then
    Except.error "Cannot access this step. Previous steps must be completed first."
  else
    Except.ok ()

/-- Split a character list at the first non-digit: the leading digit run
and the remainder. -/
def takeDigits : List Char → (List Char × List Char)
  | [] => ([], [])
  | c :: cs =>
      if c.isDigit then
        let p := takeDigits cs
        (c :: p.1, p.2)
      else ([], c :: cs)

/-- The regex `^\d+\.\d+(\.\d+)?$` on a character list: one or more
digits, a dot, one or more digits, then optionally a dot and one or more
digits, consuming the whole input. -/
def versionCore (cs : List Char) : Bool :=
  match takeDigits cs with
  | ([], _) => false
  | (_ :: _, r1) =>
      match r1 with
      | '.' :: r2 =>
          (match takeDigits r2 with
           | ([], _) => false
           | (_ :: _, []) => true
           | (_ :: _, '.' :: r4) =>
               (match takeDigits r4 with
                | (_ :: _, []) => true
                | _ => false)
           | _ => false)
      | _ => false

/-- `PublishingService.validateVersion`: the test of the regex
`^\d+\.\d+(\.\d+)?$` against the version string. -/
def versionPatternTest (version : String) : Bool :=
  versionCore version.toList

/-! Orchestrator state and operations.  The service object's mutable
fields relevant to orchestration are `organizationId` and
`currentSubmission`; each operation threads this state explicitly. -/

structure ServiceState where
  organizationId : Option Nat
  currentSubmission : Option Submission
  deriving Repr, DecidableEq

/-- Result of one orchestrator operation: the (possibly updated) service
state, the success or thrown-error outcome, and whether the remote
(`this.ajax`) call was performed. -/
structure OpResult where
  state : ServiceState
  result : Except String Unit
  remoteCalled : Bool
  deriving Repr

/-- True when the operation's outcome is a thrown error. -/
def OpResult.isError (r : OpResult) : Bool :=
  match r.result with
  | Except.error _ => true
  | Except.ok _ => false

/-- `this.currentSubmission?.data?.status` for a service state. -/
def cachedDataStatus (st : ServiceState) : Option String :=
  dataStatusOf st.currentSubmission

/-- `this.currentSubmission?.status` for a service state. -/
def cachedStatus (st : ServiceState) : Option String :=
  st.currentSubmission.map Submission.status

/-- The `if (this.currentSubmission) { this.currentSubmission.data.status = v }`
update block shared by the step-submission methods.  When the cached
submission is present but its `data` object is absent the JS assignment
throws a `TypeError` (caught by the surrounding `catch`), leaving the
cache unchanged; that case is returned as `none`. -/
def setCachedDataStatus (st : ServiceState) (v : String) : Option ServiceState :=
  match st.currentSubmission with
  | none => some st
  | some sub =>
      match sub.data with
      | none => none
      | some d =>
          some { st with
                   currentSubmission :=
                     some { sub with data := some { d with status := some v } } }

/-- `PublishingService.validatePlatform` as a Boolean test. -/
def isValidPlatform (platform : String) : Bool :=
  platform == PLATFORMS.IOS || platform == PLATFORMS.ANDROID

def invalidPlatformMsg (platform : String) : String :=
  "Invalid platform: " ++ platform ++ ". Must be ios or android."

/-- `PublishingService.createSubmission`.  `remote` is the outcome of the
`POST .../submissions/initialize` call, carrying the created submission
record on success. -/
def createSubmission (st : ServiceState) (platform : String) (teamId : Option String)
    (remote : Except String Submission) : OpResult :=
  if !isValidPlatform platform then
    ⟨st, Except.error (invalidPlatformMsg platform), false⟩
  else if platform = PLATFORMS.IOS ∧ jsFalsyStr teamId then
    ⟨st, Except.error "teamId is required for iOS submissions", false⟩
  else
    match remote with
    | Except.error e =>
        ⟨st, Except.error ("Failed to create submission: " ++ e), true⟩
    | Except.ok sub =>
        ⟨{ st with currentSubmission := some sub }, Except.ok (), true⟩

/-- The store-configuration payload of `submitStoreConfig`: `bundleId`,
optional `version`, and an optional nested `data` object carrying the
Android field `fl-store-versionCode`. -/
structure StorePayloadData where
  flStoreVersionCode : Option String
  deriving Repr, DecidableEq

structure StoreData where
  bundleId : Option String
  version : Option String
  data : Option StorePayloadData
  deriving Repr, DecidableEq

/-- `PublishingService.submitStoreConfig`.  Validation happens before the
remote `PUT .../store`; on remote success the cached `data.status` is set
to `STORE_CONFIG_SUBMITTED` unconditionally (no sequencing check). -/
def submitStoreConfig (st : ServiceState) (storeData : StoreData) (platform : String)
    (remote : Except String Unit) : OpResult :=
  if !isValidPlatform platform then
    ⟨st, Except.error (invalidPlatformMsg platform), false⟩
  else if jsFalsyStr storeData.bundleId then
    ⟨st, Except.error "Bundle ID is required", false⟩
  else if (match storeData.version with
           | some v => !v.isEmpty && !versionPatternTest v
           | none => false) then
    ⟨st, Except.error ("Invalid version format: " ++
          (storeData.version.getD "") ++ ". Must be n.n.n or n.n format."), false⟩
  else if platform = PLATFORMS.ANDROID ∧
          jsFalsyStr (storeData.data.bind StorePayloadData.flStoreVersionCode) then
    ⟨st, Except.error "Version code (fl-store-versionCode) is required for Android", false⟩
  else
    match remote with
    | Except.error e =>
        ⟨st, Except.error ("Failed to submit store configuration: " ++ e), true⟩
    | Except.ok _ =>
        match setCachedDataStatus st DATA_STATUS.STORE_CONFIG_SUBMITTED with
        | some st2 => ⟨st2, Except.ok (), true⟩
        | none =>
            ⟨st, Except.error "Failed to submit store configuration: TypeError", true⟩

/-- `PublishingService.submitPushConfig`.  No validation at all: the
remote `PUT .../metadata` is always attempted, and on success the cached
`data.status` is set to `PUSH_NOTIFICATION_CONFIGURED`. -/
def submitPushConfig (st : ServiceState) (remote : Except String Unit) : OpResult :=
  match remote with
  | Except.error e =>
      ⟨st, Except.error ("Failed to submit push configuration: " ++ e), true⟩
  | Except.ok _ =>
      match setCachedDataStatus st DATA_STATUS.PUSH_NOTIFICATION_CONFIGURED with
      | some st2 => ⟨st2, Except.ok (), true⟩
      | none =>
          ⟨st, Except.error "Failed to submit push configuration: TypeError", true⟩

/-- The metadata payload of `submitMetadata`, reduced to the splash-screen
encryption flag the method manipulates. -/
structure MetadataPayload where
  splashScreenIsEncrypted : Option Bool
  deriving Repr, DecidableEq

/-- The payload preparation at the top of `submitMetadata`: a new splash
screen forces `splashScreen.isEncrypted = true`. -/
def prepareMetadataPayload (p : MetadataPayload) (hasNewSplashScreen : Bool) :
    MetadataPayload :=
  if hasNewSplashScreen then { p with splashScreenIsEncrypted := some true } else p

/-- `PublishingService.submitMetadata`.  The (prepared) payload only
affects the remote request body, which the `remote` argument abstracts;
no validation is performed, and on remote success the cached
`data.status` is set to `METADATA_SUBMITTED`. -/
def submitMetadata (st : ServiceState) (_p : MetadataPayload) (_hasNewSplashScreen : Bool)
    (remote : Except String Unit) : OpResult :=
  match remote with
  | Except.error e =>
      ⟨st, Except.error ("Failed to submit metadata: " ++ e), true⟩
  | Except.ok _ =>
      match setCachedDataStatus st DATA_STATUS.METADATA_SUBMITTED with
      | some st2 => ⟨st2, Except.ok (), true⟩
      | none =>
          ⟨st, Except.error "Failed to submit metadata: TypeError", true⟩

/-- `PublishingService.triggerBuild`.  Guarded by strict equality of the
cached `data.status` with `METADATA_SUBMITTED`; on remote success both
the cached `data.status` and the cached outer `status` are set to
`BUILD_TRIGGERED`. -/
def triggerBuild (st : ServiceState) (remote : Except String Unit) : OpResult :=
  if cachedDataStatus st ≠ some DATA_STATUS.METADATA_SUBMITTED then
    ⟨st, Except.error "Cannot trigger build. Metadata must be submitted first.", false⟩
  else
    match remote with
    | Except.error e =>
        ⟨st, Except.error ("Failed to trigger build: " ++ e), true⟩
    | Except.ok _ =>
        match st.currentSubmission with
        | none => ⟨st, Except.ok (), true⟩
        | some sub =>
            match sub.data with
            | none => ⟨st, Except.error "Failed to trigger build: TypeError", true⟩
            | some d =>
                ⟨{ st with
                     currentSubmission :=
                       some { sub with
                                status := SUBMISSION_STATUS.BUILD_TRIGGERED,
                                data := some { d with
                                                 status := some DATA_STATUS.BUILD_TRIGGERED } } },
                 Except.ok (), true⟩

/-- `PublishingService.cancelBuild`.  No guard; on remote success the
cached outer `status` is set to `cancelled`. -/
def cancelBuild (st : ServiceState) (remote : Except String Unit) : OpResult :=
  match remote with
  | Except.error e =>
      ⟨st, Except.error ("Failed to cancel build: " ++ e), true⟩
  | Except.ok _ =>
      match st.currentSubmission with
      | none => ⟨st, Except.ok (), true⟩
      | some sub =>
          ⟨{ st with
               currentSubmission := some { sub with status := SUBMISSION_STATUS.CANCELLED } },
           Except.ok (), true⟩

/-! Organization-gated credential, certificate and bundle operations.
Each starts with `if (!this.organizationId) throw ...` before anything
else. -/

def orgNotSetMsg : String := "Organization ID not set. Call initializeApp() first."

/-- `PublishingService.getAPIKeys`. -/
def getAPIKeys (st : ServiceState) (remote : Except String Unit) : OpResult :=
  if jsFalsyNat st.organizationId then
    ⟨st, Except.error orgNotSetMsg, false⟩
  else
    match remote with
    | Except.error e => ⟨st, Except.error ("Failed to get API keys: " ++ e), true⟩
    | Except.ok _ => ⟨st, Except.ok (), true⟩

/-- The fields of the API-key creation payload that `createAPIKey`
validates. -/
structure APIKeyData where
  name : Option String
  keyId : Option String
  issuerId : Option String
  privateKey : Option String
  deriving Repr, DecidableEq

/-- `PublishingService.createAPIKey`: organization gate, then required-field
validation, then the remote `POST`. -/
def createAPIKey (st : ServiceState) (keyData : APIKeyData)
    (remote : Except String Unit) : OpResult :=
  if jsFalsyNat st.organizationId then
    ⟨st, Except.error orgNotSetMsg, false⟩
  else if jsFalsyStr keyData.name || jsFalsyStr keyData.keyId ||
          jsFalsyStr keyData.issuerId || jsFalsyStr keyData.privateKey then
    ⟨st, Except.error "Missing required API key fields: name, keyId, issuerId, privateKey",
     false⟩
  else
    match remote with
    | Except.error e => ⟨st, Except.error ("Failed to create API key: " ++ e), true⟩
    | Except.ok _ => ⟨st, Except.ok (), true⟩

/-- `PublishingService.validateAPIKey`: organization gate, then the remote
`POST .../validate`. -/
def validateAPIKey (st : ServiceState) (_keyData : APIKeyData)
    (remote : Except String Unit) : OpResult :=
  if jsFalsyNat st.organizationId then
    ⟨st, Except.error orgNotSetMsg, false⟩
  else
    match remote with
    | Except.error e => ⟨st, Except.error ("Failed to validate API key: " ++ e), true⟩
    | Except.ok _ => ⟨st, Except.ok (), true⟩

/-- `PublishingService.checkCertificate`: organization gate, then `teamId`
requirement, then the remote call. -/
def checkCertificate (st : ServiceState) (teamId : Option String)
    (remote : Except String Unit) : OpResult :=
  if jsFalsyNat st.organizationId then
    ⟨st, Except.error orgNotSetMsg, false⟩
  else if jsFalsyStr teamId then
    ⟨st, Except.error "teamId is required for certificate check", false⟩
  else
    match remote with
    | Except.error e => ⟨st, Except.error ("Failed to check certificate: " ++ e), true⟩
    | Except.ok _ => ⟨st, Except.ok (), true⟩

/-- `PublishingService.generateCertificate`: organization gate, then the
remote call. -/
def generateCertificate (st : ServiceState) (_teamId : Option String)
    (remote : Except String Unit) : OpResult :=
  if jsFalsyNat st.organizationId then
    ⟨st, Except.error orgNotSetMsg, false⟩
  else
    match remote with
    | Except.error e => ⟨st, Except.error ("Failed to generate certificate: " ++ e), true⟩
    | Except.ok _ => ⟨st, Except.ok (), true⟩

/-- `PublishingService.getBundleIDs`: organization gate, then the remote
call. -/
def getBundleIDs (st : ServiceState) (_teamId : Option String)
    (remote : Except String Unit) : OpResult :=
  if jsFalsyNat st.organizationId then
    ⟨st, Except.error orgNotSetMsg, false⟩
  else
    match remote with
    | Except.error e => ⟨st, Except.error ("Failed to get bundle IDs: " ++ e), true⟩
    | Except.ok _ => ⟨st, Except.ok (), true⟩

/-! Progress projector (`getCompletedSteps` in `js/build.js`). -/

/-- The iOS step-identifier list used by the progress projector, in order. -/
def iosProjectorSteps : List String :=
  ["api-key", "bundle-cert", "push-config", "app-store-listing", "build"]

/-- The Android step-identifier list used by the progress projector. -/
def androidProjectorSteps : List String :=
  ["bundle-keystore", "push-config", "app-store-listing", "build"]

/-- The projector's step list for a platform string (`platform === "ios"`
selects the iOS list, anything else the Android list, as in the source's
ternaries). -/
def projectorSteps (platform : String) : List String :=
  if platform = PLATFORMS.IOS then iosProjectorSteps else androidProjectorSteps

/-- `getCompletedSteps` from `js/build.js`: the status-to-completed-steps
map, with `[]` for an absent submission, absent `data`, or an
unrecognized `data.status`. -/
def getCompletedSteps (submission : Option Submission) (platform : String) : List String :=
  match submission with
  | none => []
  | some s =>
      match s.data with
      | none => []
      | some d =>
          match d.status with
          | some ds =>
              if ds = DATA_STATUS.STORE_CONFIG_SUBMITTED then
                if platform = PLATFORMS.IOS then ["api-key", "bundle-cert"]
                else ["bundle-keystore"]
              else if ds = DATA_STATUS.PUSH_NOTIFICATION_CONFIGURED then
                if platform = PLATFORMS.IOS then ["api-key", "bundle-cert", "push-config"]
                else ["bundle-keystore", "push-config"]
              else if ds = DATA_STATUS.METADATA_SUBMITTED then
                if platform = PLATFORMS.IOS then
                  ["api-key", "bundle-cert", "push-config", "app-store-listing"]
                else ["bundle-keystore", "push-config", "app-store-listing"]
              else if ds = DATA_STATUS.BUILD_TRIGGERED then
                if platform = PLATFORMS.IOS then
                  ["api-key", "bundle-cert", "push-config", "app-store-listing", "build"]
                else ["bundle-keystore", "push-config", "app-store-listing", "build"]
              else []
          | none => []

/-! Theorems about the embedded program. -/

/-- Shared helper: `submitPushConfig` always performs its remote call. -/
lemma submitPushConfig_always_calls (st : ServiceState) (r : Except String Unit) :
    (submitPushConfig st r).remoteCalled = true := by
  rcases r with e | u
  · rfl
  · rcases h : setCachedDataStatus st DATA_STATUS.PUSH_NOTIFICATION_CONFIGURED with _ | st2 <;>
      simp [submitPushConfig, h]

/-- Shared helper: `submitMetadata` always performs its remote call. -/
lemma submitMetadata_always_calls (st : ServiceState) (p : MetadataPayload) (b : Bool)
    (r : Except String Unit) :
    (submitMetadata st p b r).remoteCalled = true := by
  rcases r with e | u
  · rfl
  · rcases h : setCachedDataStatus st DATA_STATUS.METADATA_SUBMITTED with _ | st2 <;>
      simp [submitMetadata, h]

/-- Shared helper: `submitStoreConfig` performs its remote call whenever
its payload validation passes, whatever the cached `data.status`. -/
lemma submitStoreConfig_calls_of_valid (st : ServiceState) (storeData : StoreData)
    (platform : String) (remote : Except String Unit)
    (hvp : isValidPlatform platform = true)
    (hb : jsFalsyStr storeData.bundleId = false)
    (hv : ∀ v, storeData.version = some v → v.isEmpty = true ∨ versionPatternTest v = true)
    (hvc : platform = PLATFORMS.ANDROID →
      jsFalsyStr (storeData.data.bind StorePayloadData.flStoreVersionCode) = false) :
    (submitStoreConfig st storeData platform remote).remoteCalled = true := by
  have hvm : (match storeData.version with
              | some v => !v.isEmpty && !versionPatternTest v
              | none => false) = false := by
    rcases hveq : storeData.version with _ | v
    · rfl
    · rcases hv v hveq with h | h <;> simp [h]
  have hcond :
      ¬(platform = PLATFORMS.ANDROID ∧
        jsFalsyStr (storeData.data.bind StorePayloadData.flStoreVersionCode) = true) := by
    rintro ⟨ha, hc⟩
    rw [hvc ha] at hc
    exact Bool.false_ne_true hc
  rcases remote with e | u
  · simp [submitStoreConfig, hvp, hb, hvm, hcond]
  · rcases hset : setCachedDataStatus st DATA_STATUS.STORE_CONFIG_SUBMITTED with _ | st2 <;>
      simp [submitStoreConfig, hvp, hb, hvm, hcond, hset]

/-- Shared helper: `validateStepAccess` succeeds exactly when the actual
status index is not more than one position behind the required one. -/
lemma validateStepAccess_ok_iff (required actual : Option String) :
    validateStepAccess required actual = Except.ok () ↔
      ¬(jsIndexOf stepOrder actual < jsIndexOf stepOrder required - 1) := by
  by_cases hc : jsIndexOf stepOrder actual < jsIndexOf stepOrder required - 1 <;>
    simp [validateStepAccess, hc]

/-- Shared helper: the cache update of a step submission never changes
the cached outer `status`. -/
lemma cachedStatus_setCachedDataStatus (st : ServiceState) (v : String) (st2 : ServiceState)
    (h : setCachedDataStatus st v = some st2) :
    cachedStatus st2 = cachedStatus st := by
  rcases hcs : st.currentSubmission with _ | sub
  · simp only [setCachedDataStatus, hcs] at h
    injection h with h2
    subst h2
    rfl
  · rcases hd : sub.data with _ | d
    · simp [setCachedDataStatus, hcs, hd] at h
    · simp only [setCachedDataStatus, hcs, hd] at h
      injection h with h2
      subst h2
      simp [cachedStatus, hcs]

/-- C4: for every submission that is absent or whose outer status is
terminal (completed, failed, or cancelled), the resolver returns
`needsNewSubmission = true`, `currentStep = "initialize"` and
`canProceed = true`, for every platform (in particular ios and
android). -/
theorem C4_terminal_resolves_to_initialize
    (submission : Option Submission) (platform : String)
    (h : submission = none ∨ ∃ s, submission = some s ∧ s.status ∈ TERMINAL_STATUSES) :
    needsNewSubmission submission = true ∧
    determineCurrentStep submission platform = "initialize" ∧
    canProceedToStep submission platform = true := by
  rcases h with rfl | ⟨⟨stat, dat⟩, rfl, hmem⟩
  · exact ⟨rfl, rfl, rfl⟩
  · simp only [TERMINAL_STATUSES, List.mem_cons, List.not_mem_nil, or_false] at hmem
    rcases hmem with rfl | rfl | rfl <;> exact ⟨rfl, rfl, rfl⟩

/-- Witness for C4 at a concrete cancelled iOS submission. -/
theorem C4_witness :
    needsNewSubmission (some ⟨"cancelled", some ⟨some "STORE_CONFIG_SUBMITTED"⟩⟩) = true ∧
    determineCurrentStep (some ⟨"cancelled", some ⟨some "STORE_CONFIG_SUBMITTED"⟩⟩) "ios" =
      "initialize" ∧
    canProceedToStep (some ⟨"cancelled", some ⟨some "STORE_CONFIG_SUBMITTED"⟩⟩) "ios" = true :=
  C4_terminal_resolves_to_initialize
    (some ⟨"cancelled", some ⟨some "STORE_CONFIG_SUBMITTED"⟩⟩) "ios"
    (Or.inr ⟨⟨"cancelled", some ⟨some "STORE_CONFIG_SUBMITTED"⟩⟩, rfl, by decide⟩)

/-- C5: the resolver's `canProceed` flag is false exactly when the
submission is present with `data.status = BUILD_TRIGGERED` and outer
`status = started`, and true in every other case (absent submissions and
non-started statuses included). -/
theorem C5_canProceed_false_iff (submission : Option Submission) (platform : String) :
    canProceedToStep submission platform = false ↔
      ∃ s, submission = some s ∧ s.status = SUBMISSION_STATUS.STARTED ∧
        s.data.bind SubmissionData.status = some DATA_STATUS.BUILD_TRIGGERED := by
  rcases submission with _ | s
  · simp [canProceedToStep]
  · by_cases h1 : s.status = SUBMISSION_STATUS.STARTED <;>
      by_cases h2 : s.data.bind SubmissionData.status = some DATA_STATUS.BUILD_TRIGGERED <;>
      simp [canProceedToStep, h1, h2]

/-- Witness for C5 at a started submission with an in-flight build. -/
theorem C5_witness :
    canProceedToStep (some ⟨"started", some ⟨some "BUILD_TRIGGERED"⟩⟩) "ios" = false :=
  (C5_canProceed_false_iff (some ⟨"started", some ⟨some "BUILD_TRIGGERED"⟩⟩) "ios").mpr
    ⟨⟨"started", some ⟨some "BUILD_TRIGGERED"⟩⟩, rfl, rfl, rfl⟩

/-- C6: `triggerBuild` fails with the sequencing error, performing no
remote call and leaving the state unchanged, whenever the cached
`data.status` is not exactly `METADATA_SUBMITTED` (including when no
submission is cached at all). -/
theorem C6_triggerBuild_strict_equality_guard
    (st : ServiceState) (remote : Except String Unit)
    (h : cachedDataStatus st ≠ some DATA_STATUS.METADATA_SUBMITTED) :
    triggerBuild st remote =
      ⟨st, Except.error "Cannot trigger build. Metadata must be submitted first.", false⟩ := by
  unfold triggerBuild
  rw [if_pos h]

/-- Witness for C6 at a cached submission whose `data.status` is
`PUSH_NOTIFICATION_CONFIGURED` (the metadata step was skipped). -/
theorem C6_witness :
    cachedDataStatus ⟨some 1, some ⟨"started", some ⟨some "PUSH_NOTIFICATION_CONFIGURED"⟩⟩⟩ ≠
      some DATA_STATUS.METADATA_SUBMITTED ∧
    triggerBuild ⟨some 1, some ⟨"started", some ⟨some "PUSH_NOTIFICATION_CONFIGURED"⟩⟩⟩
        (Except.ok ()) =
      ⟨⟨some 1, some ⟨"started", some ⟨some "PUSH_NOTIFICATION_CONFIGURED"⟩⟩⟩,
       Except.error "Cannot trigger build. Metadata must be submitted first.", false⟩ :=
  ⟨by decide,
   C6_triggerBuild_strict_equality_guard
     ⟨some 1, some ⟨"started", some ⟨some "PUSH_NOTIFICATION_CONFIGURED"⟩⟩⟩
     (Except.ok ()) (by decide)⟩

/-- C10: with `organizationId` unset, every credential, certificate and
bundle operation fails immediately with the organization error, performs
no remote call, and leaves the state (in particular `organizationId`)
unchanged, whatever the remaining arguments and remote behaviour. -/
theorem C10_organization_gate
    (st : ServiceState) (keyData : APIKeyData) (teamId : Option String)
    (r1 r2 r3 r4 r5 r6 : Except String Unit)
    (h : st.organizationId = none) :
    getAPIKeys st r1 = ⟨st, Except.error orgNotSetMsg, false⟩ ∧
    createAPIKey st keyData r2 = ⟨st, Except.error orgNotSetMsg, false⟩ ∧
    validateAPIKey st keyData r3 = ⟨st, Except.error orgNotSetMsg, false⟩ ∧
    checkCertificate st teamId r4 = ⟨st, Except.error orgNotSetMsg, false⟩ ∧
    generateCertificate st teamId r5 = ⟨st, Except.error orgNotSetMsg, false⟩ ∧
    getBundleIDs st teamId r6 = ⟨st, Except.error orgNotSetMsg, false⟩ := by
  have hf : jsFalsyNat st.organizationId = true := by rw [h]; rfl
  refine ⟨?_, ?_, ?_, ?_, ?_, ?_⟩ <;>
    simp [getAPIKeys, createAPIKey, validateAPIKey, checkCertificate,
          generateCertificate, getBundleIDs, hf]

/-- Witness for C10 at the fresh service state. -/
theorem C10_witness :
    getAPIKeys ⟨none, none⟩ (Except.ok ()) =
      ⟨⟨none, none⟩, Except.error orgNotSetMsg, false⟩ ∧
    createAPIKey ⟨none, none⟩ ⟨some "k", some "id", some "iss", some "pk"⟩ (Except.ok ()) =
      ⟨⟨none, none⟩, Except.error orgNotSetMsg, false⟩ ∧
    validateAPIKey ⟨none, none⟩ ⟨some "k", some "id", some "iss", some "pk"⟩ (Except.ok ()) =
      ⟨⟨none, none⟩, Except.error orgNotSetMsg, false⟩ ∧
    checkCertificate ⟨none, none⟩ (some "TEAM") (Except.ok ()) =
      ⟨⟨none, none⟩, Except.error orgNotSetMsg, false⟩ ∧
    generateCertificate ⟨none, none⟩ (some "TEAM") (Except.ok ()) =
      ⟨⟨none, none⟩, Except.error orgNotSetMsg, false⟩ ∧
    getBundleIDs ⟨none, none⟩ (some "TEAM") (Except.ok ()) =
      ⟨⟨none, none⟩, Except.error orgNotSetMsg, false⟩ :=
  C10_organization_gate ⟨none, none⟩ ⟨some "k", some "id", some "iss", some "pk"⟩
    (some "TEAM") (Except.ok ()) (Except.ok ()) (Except.ok ()) (Except.ok ())
    (Except.ok ()) (Except.ok ()) rfl

/-- C7: when the remote call of any step transition (create submission,
submit store config, submit push config, submit metadata, trigger build,
cancel build) fails, the service state — in particular the cached
`data.status` — is left exactly as it was, and an error is propagated to
the caller, so retrying is safe. -/
theorem C7_remote_failure_is_atomic
    (st : ServiceState) (storeData : StoreData) (platform : String)
    (teamId : Option String) (p : MetadataPayload) (b : Bool) (e : String) :
    ((createSubmission st platform teamId (Except.error e)).state = st ∧
       (createSubmission st platform teamId (Except.error e)).isError = true) ∧
    ((submitStoreConfig st storeData platform (Except.error e)).state = st ∧
       (submitStoreConfig st storeData platform (Except.error e)).isError = true) ∧
    ((submitPushConfig st (Except.error e)).state = st ∧
       (submitPushConfig st (Except.error e)).isError = true) ∧
    ((submitMetadata st p b (Except.error e)).state = st ∧
       (submitMetadata st p b (Except.error e)).isError = true) ∧
    ((triggerBuild st (Except.error e)).state = st ∧
       (triggerBuild st (Except.error e)).isError = true) ∧
    ((cancelBuild st (Except.error e)).state = st ∧
       (cancelBuild st (Except.error e)).isError = true) := by
  refine ⟨?_, ?_, ?_, ?_, ?_, ?_⟩
  · simp only [createSubmission]
    split_ifs <;> simp [OpResult.isError]
  · simp only [submitStoreConfig]
    split_ifs <;> simp [OpResult.isError]
  · simp [submitPushConfig, OpResult.isError]
  · simp [submitMetadata, OpResult.isError]
  · simp only [triggerBuild]
    split_ifs <;> simp [OpResult.isError]
  · simp [cancelBuild, OpResult.isError]

/-- C8: `submitStoreConfig` rejects with an error, without performing the
remote call and without touching the state, whenever `bundleId` is
absent, or a (non-empty) `version` is supplied that fails the pattern
`^\d+\.\d+(\.\d+)?$`, or the platform is android and
`data["fl-store-versionCode"]` is absent or empty; and when all those
checks pass the remote call is performed.  Presence of `version` is the
source's JS-truthiness test, so the empty string counts as absent. -/
theorem C8_submitStoreConfig_validation
    (st : ServiceState) (storeData : StoreData) (platform : String)
    (remote : Except String Unit)
    (hp : platform = PLATFORMS.IOS ∨ platform = PLATFORMS.ANDROID) :
    (storeData.bundleId = none →
       (submitStoreConfig st storeData platform remote).remoteCalled = false ∧
       (submitStoreConfig st storeData platform remote).isError = true ∧
       (submitStoreConfig st storeData platform remote).state = st) ∧
    (∀ v, storeData.version = some v → v.isEmpty = false → versionPatternTest v = false →
       (submitStoreConfig st storeData platform remote).remoteCalled = false ∧
       (submitStoreConfig st storeData platform remote).isError = true ∧
       (submitStoreConfig st storeData platform remote).state = st) ∧
    (platform = PLATFORMS.ANDROID →
       jsFalsyStr (storeData.data.bind StorePayloadData.flStoreVersionCode) = true →
       (submitStoreConfig st storeData platform remote).remoteCalled = false ∧
       (submitStoreConfig st storeData platform remote).isError = true ∧
       (submitStoreConfig st storeData platform remote).state = st) ∧
    (jsFalsyStr storeData.bundleId = false →
       (∀ v, storeData.version = some v → v.isEmpty = true ∨ versionPatternTest v = true) →
       (platform = PLATFORMS.ANDROID →
         jsFalsyStr (storeData.data.bind StorePayloadData.flStoreVersionCode) = false) →
       (submitStoreConfig st storeData platform remote).remoteCalled = true) := by
  have hvp : isValidPlatform platform = true := by
    rcases hp with rfl | rfl <;> rfl
  refine ⟨?_, ?_, ?_, ?_⟩
  · intro hb
    simp [submitStoreConfig, hvp, hb, jsFalsyStr, OpResult.isError]
  · intro v hv hne hbad
    by_cases hb : jsFalsyStr storeData.bundleId = true
    · simp [submitStoreConfig, hvp, hb, OpResult.isError]
    · simp only [Bool.not_eq_true] at hb
      simp [submitStoreConfig, hvp, hb, hv, hne, hbad, OpResult.isError]
  · intro hand hvc
    subst hand
    by_cases hb : jsFalsyStr storeData.bundleId = true
    · simp [submitStoreConfig, hvp, hb, OpResult.isError]
    · simp only [Bool.not_eq_true] at hb
      by_cases hv : (match storeData.version with
                     | some v => !v.isEmpty && !versionPatternTest v
                     | none => false) = true
      · simp [submitStoreConfig, hvp, hb, hv, OpResult.isError]
      · simp only [Bool.not_eq_true] at hv
        simp [submitStoreConfig, hvp, hb, hv, hvc, OpResult.isError]
  · intro hb hv hvc
    have hvm : (match storeData.version with
                | some v => !v.isEmpty && !versionPatternTest v
                | none => false) = false := by
      rcases hveq : storeData.version with _ | v
      · rfl
      · rcases hv v hveq with h | h <;> simp [h]
    have hcond :
        ¬(platform = PLATFORMS.ANDROID ∧
          jsFalsyStr (storeData.data.bind StorePayloadData.flStoreVersionCode) = true) := by
      rintro ⟨ha, hc⟩
      rw [hvc ha] at hc
      exact Bool.false_ne_true hc
    rcases remote with e | u
    · simp [submitStoreConfig, hvp, hb, hvm, hcond]
    · rcases hset : setCachedDataStatus st DATA_STATUS.STORE_CONFIG_SUBMITTED with _ | st2 <;>
        simp [submitStoreConfig, hvp, hb, hvm, hcond, hset]

/-- Witness for C8: an android payload with a valid version and version
code leads to the remote call being performed. -/
theorem C8_witness :
    (submitStoreConfig ⟨some 1, none⟩
        ⟨some "com.example.app", some "1.2.3", some ⟨some "42"⟩⟩ "android"
        (Except.ok ())).remoteCalled = true :=
  (C8_submitStoreConfig_validation ⟨some 1, none⟩
      ⟨some "com.example.app", some "1.2.3", some ⟨some "42"⟩⟩ "android"
      (Except.ok ()) (Or.inr rfl)).2.2.2
    (by decide)
    (fun v hv => by
      simp only [Option.some.injEq] at hv
      subst hv
      exact Or.inr (by decide))
    (fun _ => by decide)

/-- C9: the progress projector applied to a submission with
`data.status = METADATA_SUBMITTED` on platform ios yields exactly
`[api-key, bundle-cert, push-config, app-store-listing]`, which excludes
`build`; and in general every projected completed-steps list is an
initial segment (`List.take`) of the platform's ordered step list. -/
theorem C9_projector_monotone_prefix :
    getCompletedSteps (some ⟨"started", some ⟨some DATA_STATUS.METADATA_SUBMITTED⟩⟩)
        PLATFORMS.IOS =
      ["api-key", "bundle-cert", "push-config", "app-store-listing"] ∧
    "build" ∉ getCompletedSteps
        (some ⟨"started", some ⟨some DATA_STATUS.METADATA_SUBMITTED⟩⟩) PLATFORMS.IOS ∧
    ∀ (submission : Option Submission) (platform : String),
      ∃ k, getCompletedSteps submission platform = (projectorSteps platform).take k := by
  refine ⟨by decide, by decide, ?_⟩
  intro submission platform
  rcases submission with _ | ⟨stat, dat⟩
  · exact ⟨0, rfl⟩
  rcases dat with _ | ⟨ds⟩
  · exact ⟨0, rfl⟩
  rcases ds with _ | ds
  · exact ⟨0, rfl⟩
  by_cases hp : platform = PLATFORMS.IOS
  · subst hp
    by_cases h1 : ds = DATA_STATUS.STORE_CONFIG_SUBMITTED
    · subst h1; exact ⟨2, rfl⟩
    by_cases h2 : ds = DATA_STATUS.PUSH_NOTIFICATION_CONFIGURED
    · subst h2; exact ⟨3, rfl⟩
    by_cases h3 : ds = DATA_STATUS.METADATA_SUBMITTED
    · subst h3; exact ⟨4, rfl⟩
    by_cases h4 : ds = DATA_STATUS.BUILD_TRIGGERED
    · subst h4; exact ⟨5, rfl⟩
    · exact ⟨0, by simp [getCompletedSteps, projectorSteps, h1, h2, h3, h4]⟩
  · by_cases h1 : ds = DATA_STATUS.STORE_CONFIG_SUBMITTED
    · subst h1; exact ⟨1, by simp [getCompletedSteps, projectorSteps, hp,
        DATA_STATUS.STORE_CONFIG_SUBMITTED, androidProjectorSteps]⟩
    by_cases h2 : ds = DATA_STATUS.PUSH_NOTIFICATION_CONFIGURED
    · subst h2; exact ⟨2, by simp [getCompletedSteps, projectorSteps, hp,
        DATA_STATUS.PUSH_NOTIFICATION_CONFIGURED, DATA_STATUS.STORE_CONFIG_SUBMITTED,
        androidProjectorSteps]⟩
    by_cases h3 : ds = DATA_STATUS.METADATA_SUBMITTED
    · subst h3; exact ⟨3, by simp [getCompletedSteps, projectorSteps, hp,
        DATA_STATUS.METADATA_SUBMITTED, DATA_STATUS.PUSH_NOTIFICATION_CONFIGURED,
        DATA_STATUS.STORE_CONFIG_SUBMITTED, androidProjectorSteps]⟩
    by_cases h4 : ds = DATA_STATUS.BUILD_TRIGGERED
    · subst h4; exact ⟨4, by simp [getCompletedSteps, projectorSteps, hp,
        DATA_STATUS.BUILD_TRIGGERED, DATA_STATUS.METADATA_SUBMITTED,
        DATA_STATUS.PUSH_NOTIFICATION_CONFIGURED, DATA_STATUS.STORE_CONFIG_SUBMITTED,
        androidProjectorSteps]⟩
    · exact ⟨0, by simp [getCompletedSteps, projectorSteps, hp, h1, h2, h3, h4]⟩

/-- C1 counterexample: with the cached submission at
`METADATA_SUBMITTED` — which is not one step behind
`STORE_CONFIG_SUBMITTED` in the ordered sequence — `submitStoreConfig`
performs the remote call and succeeds instead of failing with a
sequencing error before any remote call. -/
theorem C1_counterexample :
    cachedDataStatus ⟨some 1, some ⟨"started", some ⟨some "METADATA_SUBMITTED"⟩⟩⟩ ≠
      some DATA_STATUS.INITIALIZED ∧
    (submitStoreConfig ⟨some 1, some ⟨"started", some ⟨some "METADATA_SUBMITTED"⟩⟩⟩
        ⟨some "com.example.app", some "1.0.0", none⟩ "ios"
        (Except.ok ())).remoteCalled = true ∧
    (submitStoreConfig ⟨some 1, some ⟨"started", some ⟨some "METADATA_SUBMITTED"⟩⟩⟩
        ⟨some "com.example.app", some "1.0.0", none⟩ "ios"
        (Except.ok ())).isError = false := by
  decide

/-- C1 amended: `submitStoreConfig`, `submitPushConfig` and
`submitMetadata` perform no sequencing check on the cached `data.status`
at all — whenever their payload validation passes they perform the
remote call whatever the cached step; the `validateStepAccess` helper,
which no step-submission method invokes, succeeds exactly when the
actual status index is not more than one position behind the required
one (so it would allow repeated and out-of-order later steps even if it
were called). -/
theorem C1_no_sequencing_check_before_remote
    (st : ServiceState) (remote : Except String Unit) (p : MetadataPayload) (b : Bool) :
    (submitPushConfig st remote).remoteCalled = true ∧
    (submitMetadata st p b remote).remoteCalled = true ∧
    (∀ (storeData : StoreData) (platform : String),
       isValidPlatform platform = true →
       jsFalsyStr storeData.bundleId = false →
       (∀ v, storeData.version = some v → v.isEmpty = true ∨ versionPatternTest v = true) →
       (platform = PLATFORMS.ANDROID →
         jsFalsyStr (storeData.data.bind StorePayloadData.flStoreVersionCode) = false) →
       (submitStoreConfig st storeData platform remote).remoteCalled = true) ∧
    (∀ required actual : Option String,
       validateStepAccess required actual = Except.ok () ↔
         ¬(jsIndexOf stepOrder actual < jsIndexOf stepOrder required - 1)) := by
  refine ⟨submitPushConfig_always_calls st remote,
          submitMetadata_always_calls st p b remote, ?_, ?_⟩
  · intro storeData platform hvp hb hv hvc
    exact submitStoreConfig_calls_of_valid st storeData platform remote hvp hb hv hvc
  · intro required actual
    exact validateStepAccess_ok_iff required actual

/-- Witness for C1's amended statement: from a cached submission already
at `METADATA_SUBMITTED`, both `submitPushConfig` and a valid
`submitStoreConfig` still perform their remote calls. -/
theorem C1_witness :
    (submitPushConfig ⟨some 1, some ⟨"started", some ⟨some "METADATA_SUBMITTED"⟩⟩⟩
        (Except.ok ())).remoteCalled = true ∧
    (submitStoreConfig ⟨some 1, some ⟨"started", some ⟨some "METADATA_SUBMITTED"⟩⟩⟩
        ⟨some "com.example.demo", some "2.0", none⟩ "ios"
        (Except.ok ())).remoteCalled = true :=
  ⟨(C1_no_sequencing_check_before_remote
      ⟨some 1, some ⟨"started", some ⟨some "METADATA_SUBMITTED"⟩⟩⟩
      (Except.ok ()) ⟨none⟩ false).1,
   (C1_no_sequencing_check_before_remote
      ⟨some 1, some ⟨"started", some ⟨some "METADATA_SUBMITTED"⟩⟩⟩
      (Except.ok ()) ⟨none⟩ false).2.2.1
     ⟨some "com.example.demo", some "2.0", none⟩ "ios"
     (by decide) (by decide)
     (fun v hv => by
       simp only [Option.some.injEq] at hv
       subst hv
       exact Or.inr (by decide))
     (fun h => absurd h (by decide))⟩

/-- C2 counterexample: a successful `submitStoreConfig` performed while
the cached `data.status` is `METADATA_SUBMITTED` resets it to
`STORE_CONFIG_SUBMITTED`, strictly decreasing it in the ordered
sequence. -/
theorem C2_counterexample :
    (submitStoreConfig ⟨some 2, some ⟨"started", some ⟨some "METADATA_SUBMITTED"⟩⟩⟩
        ⟨some "com.example.demo", some "3.1", none⟩ "ios"
        (Except.ok ())).isError = false ∧
    jsIndexOf stepOrder
        (cachedDataStatus
          (submitStoreConfig ⟨some 2, some ⟨"started", some ⟨some "METADATA_SUBMITTED"⟩⟩⟩
              ⟨some "com.example.demo", some "3.1", none⟩ "ios"
              (Except.ok ())).state) <
      jsIndexOf stepOrder
        (cachedDataStatus ⟨some 2, some ⟨"started", some ⟨some "METADATA_SUBMITTED"⟩⟩⟩) := by
  decide

/-- C2 amended: when the orchestrator transitions are invoked in the
canonical order (create, submitStoreConfig, submitPushConfig,
submitMetadata, triggerBuild) each succeeds and the cached `data.status`
values are strictly increasing in the ordered sequence; out of order,
however, a successful transition can decrease `data.status`, since each
step overwrites it with its fixed target value. -/
theorem C2_canonical_order_strictly_increases
    (st0 : ServiceState) (outerStatus0 : String) :
    (createSubmission st0 PLATFORMS.IOS (some "TEAMID")
        (Except.ok ⟨outerStatus0, some ⟨some DATA_STATUS.INITIALIZED⟩⟩)).isError = false ∧
    ((submitStoreConfig
        (createSubmission st0 PLATFORMS.IOS (some "TEAMID")
          (Except.ok ⟨outerStatus0, some ⟨some DATA_STATUS.INITIALIZED⟩⟩)).state
        ⟨some "com.example.app", some "1.0.0", none⟩ PLATFORMS.IOS
        (Except.ok ())).isError = false ∧
     ((submitPushConfig
         (submitStoreConfig
           (createSubmission st0 PLATFORMS.IOS (some "TEAMID")
             (Except.ok ⟨outerStatus0, some ⟨some DATA_STATUS.INITIALIZED⟩⟩)).state
           ⟨some "com.example.app", some "1.0.0", none⟩ PLATFORMS.IOS
           (Except.ok ())).state
         (Except.ok ())).isError = false ∧
      ((submitMetadata
          (submitPushConfig
            (submitStoreConfig
              (createSubmission st0 PLATFORMS.IOS (some "TEAMID")
                (Except.ok ⟨outerStatus0, some ⟨some DATA_STATUS.INITIALIZED⟩⟩)).state
              ⟨some "com.example.app", some "1.0.0", none⟩ PLATFORMS.IOS
              (Except.ok ())).state
            (Except.ok ())).state
          ⟨none⟩ false (Except.ok ())).isError = false ∧
       ((triggerBuild
           (submitMetadata
             (submitPushConfig
               (submitStoreConfig
                 (createSubmission st0 PLATFORMS.IOS (some "TEAMID")
                   (Except.ok ⟨outerStatus0, some ⟨some DATA_STATUS.INITIALIZED⟩⟩)).state
                 ⟨some "com.example.app", some "1.0.0", none⟩ PLATFORMS.IOS
                 (Except.ok ())).state
               (Except.ok ())).state
             ⟨none⟩ false (Except.ok ())).state
           (Except.ok ())).isError = false ∧
        cachedDataStatus
            (createSubmission st0 PLATFORMS.IOS (some "TEAMID")
              (Except.ok ⟨outerStatus0, some ⟨some DATA_STATUS.INITIALIZED⟩⟩)).state =
          some DATA_STATUS.INITIALIZED ∧
        cachedDataStatus
            (submitStoreConfig
              (createSubmission st0 PLATFORMS.IOS (some "TEAMID")
                (Except.ok ⟨outerStatus0, some ⟨some DATA_STATUS.INITIALIZED⟩⟩)).state
              ⟨some "com.example.app", some "1.0.0", none⟩ PLATFORMS.IOS
              (Except.ok ())).state =
          some DATA_STATUS.STORE_CONFIG_SUBMITTED ∧
        cachedDataStatus
            (submitPushConfig
              (submitStoreConfig
                (createSubmission st0 PLATFORMS.IOS (some "TEAMID")
                  (Except.ok ⟨outerStatus0, some ⟨some DATA_STATUS.INITIALIZED⟩⟩)).state
                ⟨some "com.example.app", some "1.0.0", none⟩ PLATFORMS.IOS
                (Except.ok ())).state
              (Except.ok ())).state =
          some DATA_STATUS.PUSH_NOTIFICATION_CONFIGURED ∧
        cachedDataStatus
            (submitMetadata
              (submitPushConfig
                (submitStoreConfig
                  (createSubmission st0 PLATFORMS.IOS (some "TEAMID")
                    (Except.ok ⟨outerStatus0, some ⟨some DATA_STATUS.INITIALIZED⟩⟩)).state
                  ⟨some "com.example.app", some "1.0.0", none⟩ PLATFORMS.IOS
                  (Except.ok ())).state
                (Except.ok ())).state
              ⟨none⟩ false (Except.ok ())).state =
          some DATA_STATUS.METADATA_SUBMITTED ∧
        cachedDataStatus
            (triggerBuild
              (submitMetadata
                (submitPushConfig
                  (submitStoreConfig
                    (createSubmission st0 PLATFORMS.IOS (some "TEAMID")
                      (Except.ok ⟨outerStatus0, some ⟨some DATA_STATUS.INITIALIZED⟩⟩)).state
                    ⟨some "com.example.app", some "1.0.0", none⟩ PLATFORMS.IOS
                    (Except.ok ())).state
                  (Except.ok ())).state
                ⟨none⟩ false (Except.ok ())).state
              (Except.ok ())).state =
          some DATA_STATUS.BUILD_TRIGGERED ∧
        jsIndexOf stepOrder (some DATA_STATUS.INITIALIZED) <
            jsIndexOf stepOrder (some DATA_STATUS.STORE_CONFIG_SUBMITTED) ∧
        jsIndexOf stepOrder (some DATA_STATUS.STORE_CONFIG_SUBMITTED) <
            jsIndexOf stepOrder (some DATA_STATUS.PUSH_NOTIFICATION_CONFIGURED) ∧
        jsIndexOf stepOrder (some DATA_STATUS.PUSH_NOTIFICATION_CONFIGURED) <
            jsIndexOf stepOrder (some DATA_STATUS.METADATA_SUBMITTED) ∧
        jsIndexOf stepOrder (some DATA_STATUS.METADATA_SUBMITTED) <
            jsIndexOf stepOrder (some DATA_STATUS.BUILD_TRIGGERED))))) :=
  ⟨rfl, rfl, rfl, rfl, rfl, rfl, rfl, rfl, rfl, rfl,
   by decide, by decide, by decide, by decide⟩

/-- C3 counterexample: from a started submission at
`METADATA_SUBMITTED`, a successful `triggerBuild` sets the cached outer
status to `BUILD_TRIGGERED`, which is outside the four-value set
{started, completed, failed, cancelled}. -/
theorem C3_counterexample :
    cachedStatus ⟨some 3, some ⟨"started", some ⟨some "METADATA_SUBMITTED"⟩⟩⟩ = some "started" ∧
    (triggerBuild ⟨some 3, some ⟨"started", some ⟨some "METADATA_SUBMITTED"⟩⟩⟩
        (Except.ok ())).isError = false ∧
    cachedStatus
        (triggerBuild ⟨some 3, some ⟨"started", some ⟨some "METADATA_SUBMITTED"⟩⟩⟩
            (Except.ok ())).state = some "BUILD_TRIGGERED" ∧
    "BUILD_TRIGGERED" ∉ ["started", "completed", "failed", "cancelled"] := by
  decide

/-- C3 amended: the step-submission operations never change the cached
outer status; `cancelBuild` leaves it unchanged or sets it to
`cancelled`; `triggerBuild` leaves it unchanged or sets it to the fifth
`SUBMISSION_STATUS` constant `BUILD_TRIGGERED`.  Hence the outer status
stays within the five-value set {started, completed, failed, cancelled,
BUILD_TRIGGERED}, but `triggerBuild` escapes the claimed four-value
set. -/
theorem C3_outer_status_five_values
    (st : ServiceState) (storeData : StoreData) (platform : String)
    (p : MetadataPayload) (b : Bool) (r : Except String Unit) :
    cachedStatus (submitStoreConfig st storeData platform r).state = cachedStatus st ∧
    cachedStatus (submitPushConfig st r).state = cachedStatus st ∧
    cachedStatus (submitMetadata st p b r).state = cachedStatus st ∧
    (cachedStatus (cancelBuild st r).state = cachedStatus st ∨
       cachedStatus (cancelBuild st r).state = some SUBMISSION_STATUS.CANCELLED) ∧
    (cachedStatus (triggerBuild st r).state = cachedStatus st ∨
       cachedStatus (triggerBuild st r).state = some SUBMISSION_STATUS.BUILD_TRIGGERED) := by
  refine ⟨?_, ?_, ?_, ?_, ?_⟩
  · simp only [submitStoreConfig]
    split_ifs <;> try rfl
    rcases r with e | u
    · rfl
    · rcases hset : setCachedDataStatus st DATA_STATUS.STORE_CONFIG_SUBMITTED with _ | st2
      · simp [hset]
      · simp only [hset]
        exact cachedStatus_setCachedDataStatus st _ st2 hset
  · rcases r with e | u
    · rfl
    · rcases hset : setCachedDataStatus st DATA_STATUS.PUSH_NOTIFICATION_CONFIGURED with _ | st2
      · simp [submitPushConfig, hset]
      · simp only [submitPushConfig, hset]
        exact cachedStatus_setCachedDataStatus st _ st2 hset
  · rcases r with e | u
    · rfl
    · rcases hset : setCachedDataStatus st DATA_STATUS.METADATA_SUBMITTED with _ | st2
      · simp [submitMetadata, hset]
      · simp only [submitMetadata, hset]
        exact cachedStatus_setCachedDataStatus st _ st2 hset
  · rcases r with e | u
    · exact Or.inl rfl
    · rcases hcs : st.currentSubmission with _ | sub
      · exact Or.inl (by simp [cancelBuild, hcs])
      · exact Or.inr (by simp [cancelBuild, hcs, cachedStatus, SUBMISSION_STATUS.CANCELLED])
  · simp only [triggerBuild]
    split_ifs
    · exact Or.inl rfl
    rcases r with e | u
    · exact Or.inl rfl
    rcases hcs : st.currentSubmission with _ | sub
    · exact Or.inl (by simp [hcs])
    rcases hd : sub.data with _ | d
    · exact Or.inl (by simp [hcs, hd])
    · exact Or.inr (by simp [hcs, hd, cachedStatus, SUBMISSION_STATUS.BUILD_TRIGGERED])

end Publishing
